import Mathlib

/-!
Verification development for the otel-demo repository (Python/Flask + OpenTelemetry).

The two cores identified by the specification are embedded shallowly:

* TraceIdFormatter: the function convert_otel_trace_id_to_xray in
  src/python/main.py (identical copies in src/python/manual-instrumentation.py and
  src/python/src/manual-instrumentation.py).  Python strings are modelled as
  List Char; Python integer hex formatting is modelled by an executable
  base-16 digit extraction.

* InstrumentedOperation: the Flask route handler aws_sdk_call_manual_instrumentation
  in src/python/manual_instrumentation/main.py.  The handler is embedded in a
  state-plus-exception monad over a telemetry state recording every span opened,
  every counter increment and every log record of one invocation.  The outcomes of
  the two external calls (boto3.client and s3.list_buckets) and the wall-clock
  readings (datetime.now) are supplied by an environment record; durations are
  modelled as natural-number tick differences.
-/

set_option maxHeartbeats 1000000

/-- Python strings are modelled as lists of characters. -/
abbrev PyStr := List Char

/-- Constant TRACE_ID_DELIMITER imported by the source from
opentelemetry.propagators.aws.aws_xray_propagator (third-party dependency):
the single dash character. -/
def TRACE_ID_DELIMITER : PyStr := "-".data

/-- Constant TRACE_ID_VERSION imported by the source from
opentelemetry.propagators.aws.aws_xray_propagator: the fixed one-byte version
prefix, the string "1". -/
def TRACE_ID_VERSION : PyStr := "1".data

/-- Constant TRACE_ID_FIRST_PART_LENGTH imported by the source from
opentelemetry.propagators.aws.aws_xray_propagator: the length 8 of the first
hex segment. -/
def TRACE_ID_FIRST_PART_LENGTH : Nat := 8

/-- The lowercase hexadecimal digit character for a value below 16, as produced
by Python low-level integer formatting (digits 0-9 then a-f). -/
def hexDigit : Nat → Char
  | 0 => '0'
  | 1 => '1'
  | 2 => '2'
  | 3 => '3'
  | 4 => '4'
  | 5 => '5'
  | 6 => '6'
  | 7 => '7'
  | 8 => '8'
  | 9 => '9'
  | 10 => 'a'
  | 11 => 'b'
  | 12 => 'c'
  | 13 => 'd'
  | 14 => 'e'
  | 15 => 'f'
  | _ => '0'

/-- Fuel-driven base-16 digit extraction: repeatedly divide by 16, prepending
the digit character of the remainder, exactly the digit sequence Python renders
for a nonnegative integer with the x format code.  The fuel argument makes the
recursion structural; it is always instantiated with the number itself, which
is enough fuel because a positive number has at most as many digits as its
value. -/
def toHexAux : Nat → Nat → List Char → List Char
  | 0, _, acc => acc
  | _ + 1, 0, acc => acc
  | fuel + 1, x + 1, acc =>
      toHexAux fuel ((x + 1) / 16) (hexDigit ((x + 1) % 16) :: acc)

/-- Minimal-width lowercase hexadecimal rendering of a natural number, the
Python expression format(x, "x"): zero renders as "0", otherwise the digit
sequence with no leading zeros. -/
def natToHex (x : Nat) : List Char :=
  if x = 0 then "0".data else toHexAux x x []

/-- The Python format string "{:032x}" applied to x, the local variable
otel_trace_id_hex of the source: the minimal hex rendering, zero-padded on the
left to at least 32 characters. -/
def pyHex32 (x : Nat) : PyStr :=
  List.replicate (32 - (natToHex x).length) '0' ++ natToHex x

/-- The local variable x_ray_trace_id of convert_otel_trace_id_to_xray
(src/python/main.py lines 85-91): TRACE_ID_DELIMITER.join of the version
prefix, the first TRACE_ID_FIRST_PART_LENGTH hex characters, and the remaining
hex characters. -/
def xRayTraceId (x : Nat) : PyStr :=
  List.intercalate TRACE_ID_DELIMITER
    [TRACE_ID_VERSION,
      (pyHex32 x).take TRACE_ID_FIRST_PART_LENGTH,
      (pyHex32 x).drop TRACE_ID_FIRST_PART_LENGTH]

/-- convert_otel_trace_id_to_xray (src/python/main.py lines 83-92): the
x_ray_trace_id string wrapped in a JSON object literal under the key traceId,
via the Python template with doubled braces. -/
def convert_otel_trace_id_to_xray (x : Nat) : PyStr :=
  "\x7b\"traceId\": \"".data ++ xRayTraceId x ++ "\"\x7d".data

/-- Numeric value of a hexadecimal digit character (zero on any other
character); used to state the decoding direction of the round-trip property. -/
def hexVal (c : Char) : Nat :=
  if c = '0' then 0
  else if c = '1' then 1
  else if c = '2' then 2
  else if c = '3' then 3
  else if c = '4' then 4
  else if c = '5' then 5
  else if c = '6' then 6
  else if c = '7' then 7
  else if c = '8' then 8
  else if c = '9' then 9
  else if c = 'a' then 10
  else if c = 'b' then 11
  else if c = 'c' then 12
  else if c = 'd' then 13
  else if c = 'e' then 14
  else if c = 'f' then 15
  else 0

/-- One step of big-endian base-16 decoding. -/
def hexStep (n : Nat) (c : Char) : Nat :=
  16 * n + hexVal c

/-- Decode a big-endian string of hexadecimal digit characters back to a
natural number. -/
def hexDecode (l : PyStr) : Nat :=
  l.foldl hexStep 0

/-- Attribute values attachable to spans and events.  Strings, counts and flags
are modelled directly; datetime-derived values (isoformat strings and
millisecond durations) are modelled as natural-number ticks supplied by the
environment. -/
inductive AttrVal
  | str (s : String)
  | num (n : Nat)
  | boolean (b : Bool)
  | time (t : Nat)
  deriving Repr, DecidableEq

/-- One add_event call recorded on a span: the event name and its attribute
mapping. -/
structure SpanEvent where
  name : String
  attrs : List (String × AttrVal)
  deriving Repr, DecidableEq

/-- A span as mutated through the OpenTelemetry span API used by the handler:
set_attribute appends to attributes, add_event appends to events,
set_status with an error status stores the message in status,
record_exception appends to exceptions, and the context-manager exit bumps
closeCount (the number of times the span was ended). -/
structure SpanRecord where
  name : String
  attributes : List (String × AttrVal)
  events : List SpanEvent
  status : Option String
  exceptions : List String
  closeCount : Nat
  deriving Repr, DecidableEq

/-- A freshly opened span: no attributes, events, status or exceptions, and
not yet ended. -/
def SpanRecord.fresh (name : String) : SpanRecord :=
  ⟨name, [], [], none, [], 0⟩

/-- Log severities used by the handler. -/
inductive LogLevel
  | info
  | error
  deriving Repr, DecidableEq

/-- The telemetry state of one invocation: every span opened so far in open
order, every counter increment (as its label set, each increment having
amount 1 in the source) in order, and every log record in order. -/
structure TraceState where
  spans : List SpanRecord
  counterEvents : List (List (String × String))
  logs : List (LogLevel × String)
  deriving Repr, DecidableEq

/-- The empty telemetry state at the start of an invocation. -/
def TraceState.initial : TraceState :=
  ⟨[], [], []⟩

/-- The effect monad of the embedding: state passing over TraceState together
with Python exceptions carrying their message string. -/
abbrev M (α : Type) : Type :=
  TraceState → Except String α × TraceState

/-- Return of the effect monad: no exception, state unchanged. -/
def M.pure {α : Type} (a : α) : M α := fun st =>
  (Except.ok a, st)

/-- Sequencing in the effect monad: a raised exception skips the rest of the
block, exactly as in Python. -/
def M.bind {α β : Type} (x : M α) (f : α → M β) : M β := fun st =>
  match x st with
  | (Except.ok a, st1) => f a st1
  | (Except.error e, st1) => (Except.error e, st1)

instance : Monad M where
  pure := M.pure
  bind := M.bind

/-- Embedding of a Python try/except Exception block: run the body; a raised
exception is handed, with its message, to the handler block. -/
def pyTry {α : Type} (body : M α) (handle : String → M α) : M α := fun st =>
  match body st with
  | (Except.ok a, st1) => (Except.ok a, st1)
  | (Except.error e, st1) => handle e st1

/-- Embedding of a call to an external operation whose outcome (a value, or a
raised exception message) is supplied by the environment. -/
def liftOutcome {α : Type} (r : Except String α) : M α := fun st =>
  (r, st)

/-- Replace the element at an index by the image under f (identity beyond the
end of the list). -/
def modifyAt {α : Type} : List α → Nat → (α → α) → List α
  | [], _, _ => []
  | a :: as, 0, f => f a :: as
  | a :: as, n + 1, f => a :: modifyAt as n f

/-- The span mutation performed by span.set_attribute(k, v): append the pair
to the attribute mapping. -/
def attrPush (k : String) (v : AttrVal) : SpanRecord → SpanRecord
  | ⟨name, attributes, events, status, exceptions, closeCount⟩ =>
      ⟨name, attributes ++ [(k, v)], events, status, exceptions, closeCount⟩

/-- The span mutation performed by span.add_event(name, attrs): append the
event. -/
def eventPush (evName : String) (attrs : List (String × AttrVal)) :
    SpanRecord → SpanRecord
  | ⟨name, attributes, events, status, exceptions, closeCount⟩ =>
      ⟨name, attributes, events ++ [⟨evName, attrs⟩], status, exceptions, closeCount⟩

/-- The span mutation performed by span.record_exception(e): append the
exception message. -/
def excPush (msg : String) : SpanRecord → SpanRecord
  | ⟨name, attributes, events, status, exceptions, closeCount⟩ =>
      ⟨name, attributes, events, status, exceptions ++ [msg], closeCount⟩

/-- The span mutation performed by span.set_status(Status(StatusCode.ERROR,
msg)): store the error message as the span status. -/
def statusSet (msg : String) : SpanRecord → SpanRecord
  | ⟨name, attributes, events, _, exceptions, closeCount⟩ =>
      ⟨name, attributes, events, some msg, exceptions, closeCount⟩

/-- Ending a span (the exit action of the with-block) bumps its close count. -/
def endSpan : SpanRecord → SpanRecord
  | ⟨name, attributes, events, status, exceptions, closeCount⟩ =>
      ⟨name, attributes, events, status, exceptions, closeCount + 1⟩

/-- Apply a span mutation to the span opened i-th in this invocation. -/
def modifySpan (i : Nat) (f : SpanRecord → SpanRecord) : M Unit := fun st =>
  match st with
  | ⟨spans, counters, logs⟩ => (Except.ok (), ⟨modifyAt spans i f, counters, logs⟩)

/-- span.set_attribute(k, v). -/
def setAttribute (i : Nat) (k : String) (v : AttrVal) : M Unit :=
  modifySpan i (attrPush k v)

/-- span.add_event(name, attrs). -/
def addEvent (i : Nat) (name : String) (attrs : List (String × AttrVal)) : M Unit :=
  modifySpan i (eventPush name attrs)

/-- span.record_exception(e). -/
def recordException (i : Nat) (msg : String) : M Unit :=
  modifySpan i (excPush msg)

/-- span.set_status(Status(StatusCode.ERROR, msg)). -/
def setStatusError (i : Nat) (msg : String) : M Unit :=
  modifySpan i (statusSet msg)

/-- Embedding of with tracer.start_as_current_span(name) as s: open a fresh
span, run the body with its index, and end the span on every exit path, a
raised exception included, exactly as the Python context manager does. -/
def withSpan {α : Type} (name : String) (body : Nat → M α) : M α := fun st =>
  match st with
  | ⟨spans, counters, logs⟩ =>
    match body spans.length ⟨spans ++ [SpanRecord.fresh name], counters, logs⟩ with
    | (r, st2) =>
      match st2 with
      | ⟨spans2, counters2, logs2⟩ =>
          (r, ⟨modifyAt spans2 spans.length endSpan, counters2, logs2⟩)

/-- logger.info / logger.error: append a log record. -/
def logMsg (lvl : LogLevel) (msg : String) : M Unit := fun st =>
  match st with
  | ⟨spans, counters, logs⟩ => (Except.ok (), ⟨spans, counters, logs ++ [(lvl, msg)]⟩)

/-- counter.add(1, labels): append a counter increment with the given label
set. -/
def addCounter (labels : List (String × String)) : M Unit := fun st =>
  match st with
  | ⟨spans, counters, logs⟩ => (Except.ok (), ⟨spans, counters ++ [labels], logs⟩)

/-- One entry of the Buckets list of the list_buckets response: a dictionary
holding the bucket name under the key Name. -/
structure Bucket where
  Name : String
  deriving Repr, DecidableEq

/-- The two dictionary shapes the handler returns: the success payload with
message and buckets keys, and the failure payload with error and message
keys. -/
inductive Response
  | success (message : String) (buckets : List String)
  | failure (error : String) (message : String)
  deriving Repr, DecidableEq

/-- The environment of one invocation: the ambient parent span id read at
entry, the four datetime.now readings (invocation start, API call start and
end, invocation end) as ticks, and the outcomes of the two external calls,
boto3.client and s3.list_buckets, each either succeeding or raising an
exception with a message. -/
structure Env where
  parentSpanId : Nat
  startTime : Nat
  apiStart : Nat
  apiEnd : Nat
  endTime : Nat
  clientSetup : Except String Unit
  listBuckets : Except String (List Bucket)
  deriving Repr

/-- The Flask route handler aws_sdk_call_manual_instrumentation of
src/python/manual_instrumentation/main.py lines 83-175, embedded statement by
statement.  Durations are tick differences of the environment clock
readings. -/
def aws_sdk_call_manual_instrumentation (env : Env) : M Response := do
  logMsg LogLevel.info
    (("Starting manual instrumentation for AWS SDK call Parent span: ") ++
      toString env.parentSpanId)
  withSpan ("aws_s3_list_operation") (fun main_span =>
    pyTry
      (do
        setAttribute main_span ("operation.type") (AttrVal.str ("aws_sdk_call"))
        setAttribute main_span ("language") (AttrVal.str ("python-manual-instrumentation"))
        setAttribute main_span ("aws.service") (AttrVal.str ("s3"))
        setAttribute main_span ("aws.operation") (AttrVal.str ("list_buckets"))
        setAttribute main_span ("component") (AttrVal.str ("boto3"))
        addEvent main_span ("Operation initialized")
          [(("timestamp"), AttrVal.time env.startTime)]
        withSpan ("s3_client_setup") (fun client_span => do
          setAttribute client_span ("aws.service") (AttrVal.str ("s3"))
          setAttribute client_span ("operation.phase") (AttrVal.str ("client_initialization"))
          addEvent client_span ("Starting S3 client initialization") []
          liftOutcome env.clientSetup
          addEvent client_span ("S3 client initialized successfully") [])
        let response ← withSpan ("s3_list_buckets_api_call") (fun api_span => do
          setAttribute api_span ("aws.service") (AttrVal.str ("s3"))
          setAttribute api_span ("aws.operation") (AttrVal.str ("list_buckets"))
          setAttribute api_span ("operation.phase") (AttrVal.str ("api_execution"))
          setAttribute api_span ("http.method") (AttrVal.str ("GET"))
          addEvent api_span ("Starting API call to list S3 buckets") []
          let response ← liftOutcome env.listBuckets
          setAttribute api_span ("aws.s3.bucket_count") (AttrVal.num response.length)
          setAttribute api_span ("operation.duration_ms")
            (AttrVal.num (env.apiEnd - env.apiStart))
          addEvent api_span ("API call completed successfully")
            [(("bucket_count"), AttrVal.num response.length),
              (("duration_ms"), AttrVal.num (env.apiEnd - env.apiStart))]
          pure response)
        let bucket_names ← withSpan ("response_processing") (fun processing_span => do
          setAttribute processing_span ("operation.phase") (AttrVal.str ("data_processing"))
          setAttribute processing_span ("data.type") (AttrVal.str ("s3_bucket_list"))
          addEvent processing_span ("Starting response data processing") []
          let bucket_names := response.map Bucket.Name
          setAttribute processing_span ("processed.bucket_count")
            (AttrVal.num bucket_names.length)
          addEvent processing_span ("Response processing completed")
            [(("processed_buckets"), AttrVal.num bucket_names.length)]
          pure bucket_names)
        setAttribute main_span ("operation.total_duration_ms")
          (AttrVal.num (env.endTime - env.startTime))
        setAttribute main_span ("operation.success") (AttrVal.boolean true)
        addEvent main_span ("Operation completed successfully")
          [(("total_duration_ms"), AttrVal.num (env.endTime - env.startTime)),
            (("buckets_found"), AttrVal.num bucket_names.length),
            (("end_timestamp"), AttrVal.time env.endTime)]
        addCounter [(("operation"), ("list_buckets"))]
        pure (Response.success ("Listed S3 buckets successfully") bucket_names))
      (fun e => do
        recordException main_span e
        setStatusError main_span e
        logMsg LogLevel.error (("Error listing S3 buckets: ") ++ e)
        addCounter [(("operation"), ("list_buckets")), (("status"), ("error"))]
        pure (Response.failure e ("Failed to list S3 buckets"))))

/-- The Flask route handler aws_sdk_call_with_no_instrumentation of
src/python/manual-instrumentation.py lines 70-74 (identical copy in
src/python/src/manual-instrumentation.py lines 57-61): build the client, call
list_buckets, ignore the response, and fall off the end of the function, which
in Python returns None (modelled as the value none); an exception raised by
either call propagates. -/
def aws_sdk_call_with_no_instrumentation (clientSetup : Except String Unit)
    (listBuckets : Except String (List Bucket)) : Except String (Option Response) :=
  match clientSetup with
  | Except.error e => Except.error e
  | Except.ok () =>
    match listBuckets with
    | Except.error e => Except.error e
    | Except.ok _response => Except.ok none

/-- Embedding of a call to convert_otel_trace_id_to_xray in the effect monad:
the source function reads only its argument and the three module-level
constants, writes nothing, and returns normally, so its embedding neither
reads nor writes the telemetry state and never raises. -/
def convertM (x : Nat) : M PyStr := fun st =>
  (Except.ok (convert_otel_trace_id_to_xray x), st)

/-! Equation lemmas driving symbolic execution of the handler: each monadic
operation applied to an explicit state rewrites to an explicit result pair, so
simp evaluates an invocation step by step with states kept in normal form. -/

@[simp] theorem bind_eq_M_bind {α β : Type} (x : M α) (f : α → M β) :
    x >>= f = M.bind x f := rfl

@[simp] theorem pure_eq_M_pure {α : Type} (a : α) :
    (pure a : M α) = M.pure a := rfl

@[simp] theorem M.pure_apply {α : Type} (a : α) (st : TraceState) :
    M.pure a st = (Except.ok a, st) := rfl

@[simp] theorem M.bind_apply {α β : Type} (x : M α) (f : α → M β) (st : TraceState) :
    M.bind x f st =
      match x st with
      | (Except.ok a, st1) => f a st1
      | (Except.error e, st1) => (Except.error e, st1) := rfl

@[simp] theorem pyTry_apply {α : Type} (body : M α) (handle : String → M α)
    (st : TraceState) :
    pyTry body handle st =
      match body st with
      | (Except.ok a, st1) => (Except.ok a, st1)
      | (Except.error e, st1) => handle e st1 := rfl

@[simp] theorem liftOutcome_apply {α : Type} (r : Except String α) (st : TraceState) :
    liftOutcome r st = (r, st) := rfl

@[simp] theorem modifyAt_nil {α : Type} (n : Nat) (f : α → α) :
    modifyAt [] n f = [] := rfl

@[simp] theorem modifyAt_cons_zero {α : Type} (a : α) (as : List α) (f : α → α) :
    modifyAt (a :: as) 0 f = f a :: as := rfl

@[simp] theorem modifyAt_cons_succ {α : Type} (a : α) (as : List α) (n : Nat)
    (f : α → α) :
    modifyAt (a :: as) (n + 1) f = a :: modifyAt as n f := rfl

@[simp] theorem modifySpan_apply (i : Nat) (f : SpanRecord → SpanRecord)
    (spans : List SpanRecord) (counters : List (List (String × String)))
    (logs : List (LogLevel × String)) :
    modifySpan i f ⟨spans, counters, logs⟩ =
      (Except.ok (), ⟨modifyAt spans i f, counters, logs⟩) := rfl

@[simp] theorem attrPush_apply (k : String) (v : AttrVal) (name : String)
    (attributes : List (String × AttrVal)) (events : List SpanEvent)
    (status : Option String) (exceptions : List String) (closeCount : Nat) :
    attrPush k v ⟨name, attributes, events, status, exceptions, closeCount⟩ =
      ⟨name, attributes ++ [(k, v)], events, status, exceptions, closeCount⟩ := rfl

@[simp] theorem eventPush_apply (evName : String) (attrs : List (String × AttrVal))
    (name : String) (attributes : List (String × AttrVal)) (events : List SpanEvent)
    (status : Option String) (exceptions : List String) (closeCount : Nat) :
    eventPush evName attrs ⟨name, attributes, events, status, exceptions, closeCount⟩ =
      ⟨name, attributes, events ++ [⟨evName, attrs⟩], status, exceptions, closeCount⟩ := rfl

@[simp] theorem excPush_apply (msg : String) (name : String)
    (attributes : List (String × AttrVal)) (events : List SpanEvent)
    (status : Option String) (exceptions : List String) (closeCount : Nat) :
    excPush msg ⟨name, attributes, events, status, exceptions, closeCount⟩ =
      ⟨name, attributes, events, status, exceptions ++ [msg], closeCount⟩ := rfl

@[simp] theorem statusSet_apply (msg : String) (name : String)
    (attributes : List (String × AttrVal)) (events : List SpanEvent)
    (status : Option String) (exceptions : List String) (closeCount : Nat) :
    statusSet msg ⟨name, attributes, events, status, exceptions, closeCount⟩ =
      ⟨name, attributes, events, some msg, exceptions, closeCount⟩ := rfl

@[simp] theorem endSpan_apply (name : String) (attributes : List (String × AttrVal))
    (events : List SpanEvent) (status : Option String) (exceptions : List String)
    (closeCount : Nat) :
    endSpan ⟨name, attributes, events, status, exceptions, closeCount⟩ =
      ⟨name, attributes, events, status, exceptions, closeCount + 1⟩ := rfl

@[simp] theorem fresh_eq (name : String) :
    SpanRecord.fresh name = ⟨name, [], [], none, [], 0⟩ := rfl

@[simp] theorem withSpan_apply {α : Type} (name : String) (body : Nat → M α)
    (spans : List SpanRecord) (counters : List (List (String × String)))
    (logs : List (LogLevel × String)) :
    withSpan name body ⟨spans, counters, logs⟩ =
      match body spans.length ⟨spans ++ [SpanRecord.fresh name], counters, logs⟩ with
      | (r, st2) => (r, ⟨modifyAt st2.spans spans.length endSpan, st2.counterEvents, st2.logs⟩) := by
  simp only [withSpan]

@[simp] theorem logMsg_apply (lvl : LogLevel) (msg : String)
    (spans : List SpanRecord) (counters : List (List (String × String)))
    (logs : List (LogLevel × String)) :
    logMsg lvl msg ⟨spans, counters, logs⟩ =
      (Except.ok (), ⟨spans, counters, logs ++ [(lvl, msg)]⟩) := rfl

@[simp] theorem addCounter_apply (labels : List (String × String))
    (spans : List SpanRecord) (counters : List (List (String × String)))
    (logs : List (LogLevel × String)) :
    addCounter labels ⟨spans, counters, logs⟩ =
      (Except.ok (), ⟨spans, counters ++ [labels], logs⟩) := rfl

/-! Arithmetic facts about the hexadecimal rendering used by the trace-id
formatter. -/

theorem toHexAux_zero (fuel : Nat) (acc : List Char) :
    toHexAux fuel 0 acc = acc := by
  cases fuel <;> rfl

theorem toHexAux_append (fuel : Nat) :
    ∀ (x : Nat) (acc : List Char), x ≤ fuel →
      toHexAux fuel x acc = toHexAux fuel x [] ++ acc := by
  induction fuel with
  | zero =>
    intro x acc h
    have hx : x = 0 := Nat.le_zero.mp h
    subst hx
    rfl
  | succ f ih =>
    intro x acc h
    cases x with
    | zero => rfl
    | succ y =>
      have hq : (y + 1) / 16 ≤ f := by
        have hlt : (y + 1) / 16 < y + 1 := Nat.div_lt_self (Nat.succ_pos y) (by norm_num)
        omega
      rw [show toHexAux (f + 1) (y + 1) acc =
            toHexAux f ((y + 1) / 16) (hexDigit ((y + 1) % 16) :: acc) from rfl]
      rw [show toHexAux (f + 1) (y + 1) [] =
            toHexAux f ((y + 1) / 16) [hexDigit ((y + 1) % 16)] from rfl]
      rw [ih _ _ hq, ih _ [hexDigit ((y + 1) % 16)] hq]
      simp

theorem toHexAux_length (fuel : Nat) :
    ∀ (x : Nat) (acc : List Char) (k : Nat), x ≤ fuel → x < 16 ^ k →
      (toHexAux fuel x acc).length ≤ k + acc.length := by
  induction fuel with
  | zero =>
    intro x acc k h _
    have hx : x = 0 := Nat.le_zero.mp h
    subst hx
    simp [toHexAux]
  | succ f ih =>
    intro x acc k h hk
    cases x with
    | zero => simp [toHexAux]
    | succ y =>
      cases k with
      | zero => simp at hk
      | succ k =>
        have hq : (y + 1) / 16 ≤ f := by
          have hlt : (y + 1) / 16 < y + 1 := Nat.div_lt_self (Nat.succ_pos y) (by norm_num)
          omega
        have hqk : (y + 1) / 16 < 16 ^ k := by
          rw [Nat.div_lt_iff_lt_mul (by norm_num : (0:Nat) < 16)]
          calc y + 1 < 16 ^ (k + 1) := hk
            _ = 16 ^ k * 16 := by rw [pow_succ]
        have := ih ((y + 1) / 16) (hexDigit ((y + 1) % 16) :: acc) k hq hqk
        rw [show toHexAux (f + 1) (y + 1) acc =
              toHexAux f ((y + 1) / 16) (hexDigit ((y + 1) % 16) :: acc) from rfl]
        simp at this ⊢
        omega

theorem toHexAux_mem (fuel : Nat) :
    ∀ (x : Nat) (acc : List Char) (c : Char), c ∈ toHexAux fuel x acc →
      c ∈ acc ∨ ∃ d, d < 16 ∧ c = hexDigit d := by
  induction fuel with
  | zero =>
    intro x acc c hc
    cases x <;> exact Or.inl hc
  | succ f ih =>
    intro x acc c hc
    cases x with
    | zero => exact Or.inl hc
    | succ y =>
      rw [show toHexAux (f + 1) (y + 1) acc =
            toHexAux f ((y + 1) / 16) (hexDigit ((y + 1) % 16) :: acc) from rfl] at hc
      rcases ih _ _ _ hc with hmem | hdig
      · rcases List.mem_cons.mp hmem with heq | htl
        · exact Or.inr ⟨(y + 1) % 16, Nat.mod_lt _ (by norm_num), heq⟩
        · exact Or.inl htl
      · exact Or.inr hdig

theorem hexVal_hexDigit : ∀ d, d < 16 → hexVal (hexDigit d) = d := by decide

theorem hexDigit_ne_dash : ∀ d, d < 16 → hexDigit d ≠ '-' := by decide

theorem toHexAux_decode (fuel : Nat) :
    ∀ (x : Nat), x ≤ fuel → ∀ (n : Nat),
      List.foldl hexStep n (toHexAux fuel x []) =
        n * 16 ^ (toHexAux fuel x []).length + x := by
  induction fuel with
  | zero =>
    intro x h n
    have hx : x = 0 := Nat.le_zero.mp h
    subst hx
    simp [toHexAux]
  | succ f ih =>
    intro x h n
    cases x with
    | zero => simp [toHexAux]
    | succ y =>
      have hq : (y + 1) / 16 ≤ f := by
        have hlt : (y + 1) / 16 < y + 1 := Nat.div_lt_self (Nat.succ_pos y) (by norm_num)
        omega
      rw [show toHexAux (f + 1) (y + 1) [] =
            toHexAux f ((y + 1) / 16) [hexDigit ((y + 1) % 16)] from rfl]
      rw [toHexAux_append f _ _ hq, List.foldl_append, ih _ hq n]
      have hdm := Nat.div_add_mod (y + 1) 16
      have hmv : hexVal (hexDigit ((y + 1) % 16)) = (y + 1) % 16 :=
        hexVal_hexDigit _ (Nat.mod_lt _ (by norm_num))
      simp [hexStep, hmv, pow_succ]
      generalize (16:Nat) ^ (toHexAux f ((y + 1) / 16) []).length = P
      ring_nf
      omega

theorem natToHex_length_le (x : Nat) (h : x < 2 ^ 128) :
    (natToHex x).length ≤ 32 := by
  unfold natToHex
  split
  · simp
  · have h16 : (16:Nat) ^ 32 = 2 ^ 128 := by
      rw [show (16:Nat) = 2 ^ 4 by norm_num, ← pow_mul]
    have := toHexAux_length x x [] 32 le_rfl (by rw [h16]; exact h)
    simpa using this

theorem pyHex32_length (x : Nat) (h : x < 2 ^ 128) :
    (pyHex32 x).length = 32 := by
  have := natToHex_length_le x h
  simp [pyHex32]
  omega

theorem pyHex32_mem (x : Nat) (c : Char) (hc : c ∈ pyHex32 x) :
    ∃ d, d < 16 ∧ c = hexDigit d := by
  rcases List.mem_append.mp hc with hrep | hhex
  · refine ⟨0, by norm_num, ?_⟩
    rw [List.eq_of_mem_replicate hrep]
    rfl
  · unfold natToHex at hhex
    split at hhex
    · refine ⟨0, by norm_num, ?_⟩
      simp at hhex
      rw [hhex]
      rfl
    · rcases toHexAux_mem x x [] c hhex with hnil | hdig
      · simp at hnil
      · exact hdig

theorem pyHex32_ne_dash (x : Nat) : '-' ∉ pyHex32 x := by
  intro hc
  obtain ⟨d, hd, hcd⟩ := pyHex32_mem x _ hc
  exact hexDigit_ne_dash d hd hcd.symm

theorem foldl_hexStep_replicate (k : Nat) :
    List.foldl hexStep 0 (List.replicate k '0') = 0 := by
  induction k with
  | zero => rfl
  | succ n ih => simpa [List.replicate_succ, hexStep, hexVal] using ih

theorem hexDecode_natToHex (x : Nat) : hexDecode (natToHex x) = x := by
  unfold hexDecode natToHex
  split
  · rename_i hx
    rw [hx]
    decide
  · rename_i hx
    have := toHexAux_decode x x le_rfl 0
    simpa using this

theorem hexDecode_pyHex32 (x : Nat) : hexDecode (pyHex32 x) = x := by
  have h0 := foldl_hexStep_replicate (32 - (natToHex x).length)
  have h1 := hexDecode_natToHex x
  unfold hexDecode at h1 ⊢
  unfold pyHex32
  rw [List.foldl_append, h0, h1]

theorem xRayTraceId_structure (x : Nat) :
    xRayTraceId x =
      TRACE_ID_VERSION ++
        '-' :: ((pyHex32 x).take 8 ++ '-' :: ((pyHex32 x).drop 8 ++ [])) := rfl

/-! The claim theorems. -/

/-- C4: for every x in [0, 2^128 - 1], splitting the vendor trace-id string
built by format(x) at the delimiter yields the version prefix and two hex
segments; concatenating the two segments (version prefix and delimiters
stripped) reconstructs exactly the 32-digit zero-padded lowercase hex rendering
of x, and decoding that rendering recovers x — the trace-ID encoding
round-trips. -/
theorem claim_C4_trace_id_roundtrip (x : Nat) (h : x < 2 ^ 128) :
    (xRayTraceId x).splitOn '-' =
      [TRACE_ID_VERSION, (pyHex32 x).take 8, (pyHex32 x).drop 8] ∧
    (pyHex32 x).take 8 ++ (pyHex32 x).drop 8 = pyHex32 x ∧
    (pyHex32 x).length = 32 ∧
    hexDecode ((pyHex32 x).take 8 ++ (pyHex32 x).drop 8) = x := by
  have hnd := pyHex32_ne_dash x
  have hsplit : (xRayTraceId x).splitOn '-' =
      [TRACE_ID_VERSION, (pyHex32 x).take 8, (pyHex32 x).drop 8] := by
    have he : xRayTraceId x =
        List.intercalate ['-']
          [TRACE_ID_VERSION, (pyHex32 x).take 8, (pyHex32 x).drop 8] := rfl
    rw [he]
    refine List.splitOn_intercalate _ '-' ?_ (by simp)
    intro l hl
    simp only [List.mem_cons, List.not_mem_nil, or_false] at hl
    rcases hl with rfl | rfl | rfl
    · decide
    · intro hmem
      exact hnd (List.take_subset _ _ hmem)
    · intro hmem
      exact hnd (List.drop_subset _ _ hmem)
  refine ⟨hsplit, List.take_append_drop _ _, pyHex32_length x h, ?_⟩
  rw [List.take_append_drop]
  exact hexDecode_pyHex32 x

theorem claim_C4_witness :
    (3735928559 : Nat) < 2 ^ 128 ∧
    ((xRayTraceId 3735928559).splitOn '-' =
      [TRACE_ID_VERSION, (pyHex32 3735928559).take 8, (pyHex32 3735928559).drop 8] ∧
    (pyHex32 3735928559).take 8 ++ (pyHex32 3735928559).drop 8 = pyHex32 3735928559 ∧
    (pyHex32 3735928559).length = 32 ∧
    hexDecode ((pyHex32 3735928559).take 8 ++ (pyHex32 3735928559).drop 8) = 3735928559) :=
  ⟨by decide, claim_C4_trace_id_roundtrip 3735928559 (by decide)⟩

/-- C5 counterexample: the value actually returned by
convert_otel_trace_id_to_xray(0) is not the bare vendor trace-id literal the
claim states — the function wraps it in a JSON object literal first. -/
theorem claim_C5_counterexample :
    convert_otel_trace_id_to_xray 0 ≠
      TRACE_ID_VERSION ++ "-00000000-000000000000000000000000".data := by
  decide

/-- C5 amended: the vendor trace-id string built for trace id 0 is exactly the
version prefix followed by a dash, eight zeros, a dash and twenty-four zeros —
leading zeros are not stripped — and the value returned by the function is
exactly that string wrapped as a JSON object literal under the key traceId. -/
theorem claim_C5_format_zero :
    xRayTraceId 0 = TRACE_ID_VERSION ++ "-00000000-000000000000000000000000".data ∧
    convert_otel_trace_id_to_xray 0 =
      "\x7b\"traceId\": \"1-00000000-000000000000000000000000\"\x7d".data := by
  constructor <;> decide

/-- C6 counterexample: the string returned by convert_otel_trace_id_to_xray
for input 0 does not have length len(version)+1+8+1+24, because the returned
string also carries the 15 characters of the JSON wrapper. -/
theorem claim_C6_counterexample :
    ¬ ((convert_otel_trace_id_to_xray 0).length =
        TRACE_ID_VERSION.length + 1 + 8 + 1 + 24) := by
  decide

/-- C6 amended: for every 128-bit input the vendor trace-id segment of the
output has length exactly len(version)+1+8+1+24 and the full returned string
has that length plus the 15 JSON-wrapper characters; both contain exactly two
occurrences of the delimiter character. -/
theorem claim_C6_length_and_delimiters (x : Nat) (h : x < 2 ^ 128) :
    (xRayTraceId x).length = TRACE_ID_VERSION.length + 1 + 8 + 1 + 24 ∧
    (xRayTraceId x).count '-' = 2 ∧
    (convert_otel_trace_id_to_xray x).length =
      TRACE_ID_VERSION.length + 1 + 8 + 1 + 24 + 15 ∧
    (convert_otel_trace_id_to_xray x).count '-' = 2 := by
  have h32 := pyHex32_length x h
  have hnd := pyHex32_ne_dash x
  have hv : TRACE_ID_VERSION.length = 1 := by decide
  have htake : ((pyHex32 x).take 8).length = 8 := by
    simp [List.length_take, h32]
  have hdrop : ((pyHex32 x).drop 8).length = 24 := by
    simp [List.length_drop, h32]
  have hct : ((pyHex32 x).take 8).count '-' = 0 := by
    rw [List.count_eq_zero]
    intro hm
    exact hnd (List.take_subset _ _ hm)
  have hcd : ((pyHex32 x).drop 8).count '-' = 0 := by
    rw [List.count_eq_zero]
    intro hm
    exact hnd (List.drop_subset _ _ hm)
  have hxlen : (xRayTraceId x).length = 35 := by
    rw [xRayTraceId_structure x]
    simp [hv, htake, hdrop]
  have hxcount : (xRayTraceId x).count '-' = 2 := by
    rw [xRayTraceId_structure x]
    have hvc : TRACE_ID_VERSION.count '-' = 0 := by decide
    simp [List.count_append, List.count_cons, hvc, hct, hcd]
  have hpre : ("\x7b\"traceId\": \"".data).length = 13 := by decide
  have hsuf : ("\"\x7d".data).length = 2 := by decide
  have hprec : ("\x7b\"traceId\": \"".data).count '-' = 0 := by decide
  have hsufc : ("\"\x7d".data).count '-' = 0 := by decide
  refine ⟨by rw [hxlen, hv], hxcount, ?_, ?_⟩
  · unfold convert_otel_trace_id_to_xray
    simp [List.length_append, hpre, hsuf, hxlen, hv]
  · unfold convert_otel_trace_id_to_xray
    simp [List.count_append, hprec, hsufc, hxcount]

theorem claim_C6_witness :
    (1 : Nat) < 2 ^ 128 ∧
    ((xRayTraceId 1).length = TRACE_ID_VERSION.length + 1 + 8 + 1 + 24 ∧
    (xRayTraceId 1).count '-' = 2 ∧
    (convert_otel_trace_id_to_xray 1).length =
      TRACE_ID_VERSION.length + 1 + 8 + 1 + 24 + 15 ∧
    (convert_otel_trace_id_to_xray 1).count '-' = 2) :=
  ⟨by decide, claim_C6_length_and_delimiters 1 (by decide)⟩

/-- C7: the trace-id formatter is deterministic and side-effect-free — a call
embedded in the effect monad leaves the telemetry state exactly as it found
it, returns normally with the value of the pure function, and a second call on
the resulting state returns the same value as the first. -/
theorem claim_C7_format_deterministic_pure (x : Nat) (st : TraceState) :
    (convertM x st).2 = st ∧
    (convertM x st).1 = Except.ok (convert_otel_trace_id_to_xray x) ∧
    (convertM x ((convertM x st).2)).1 = (convertM x st).1 :=
  ⟨rfl, rfl, rfl⟩

/-- C1: whatever the outcome of the wrapped calls (client construction and
list-buckets both succeeding, or either raising), the instrumented invocation
never raises past its boundary: it returns normally with either the success
shape carrying the fixed success message and a bucket list, or the failure
shape carrying the fixed failure message. -/
theorem claim_C1_invoke_never_raises (env : Env) :
    ∃ r : Response,
      (aws_sdk_call_manual_instrumentation env TraceState.initial).1 = Except.ok r ∧
      ((∃ bs, r = Response.success ("Listed S3 buckets successfully") bs) ∨
        (∃ em, r = Response.failure em ("Failed to list S3 buckets"))) := by
  obtain ⟨pid, t1, t2, t3, t4, cs, lb⟩ := env
  cases cs with
  | error e =>
    refine ⟨Response.failure e ("Failed to list S3 buckets"), ?_, Or.inr ⟨e, rfl⟩⟩
    simp [aws_sdk_call_manual_instrumentation, setAttribute, addEvent, recordException,
      setStatusError, TraceState.initial]
  | ok u =>
    cases u
    cases lb with
    | error e =>
      refine ⟨Response.failure e ("Failed to list S3 buckets"), ?_, Or.inr ⟨e, rfl⟩⟩
      simp [aws_sdk_call_manual_instrumentation, setAttribute, addEvent, recordException,
        setStatusError, TraceState.initial]
    | ok bs =>
      refine ⟨Response.success ("Listed S3 buckets successfully") (bs.map Bucket.Name),
        ?_, Or.inl ⟨_, rfl⟩⟩
      simp [aws_sdk_call_manual_instrumentation, setAttribute, addEvent, recordException,
        setStatusError, TraceState.initial]

/-- C2: when both wrapped calls succeed and list-buckets returns three buckets
named n1, n2, n3, the invocation returns the success shape with the fixed
message and the names in order, and the counter records exactly one increment,
labelled only with operation list_buckets — so the success series increases by
exactly one and no error-labelled increment occurs. -/
theorem claim_C2_success_three_buckets (pid t1 t2 t3 t4 : Nat) (n1 n2 n3 : String) :
    (aws_sdk_call_manual_instrumentation
        ⟨pid, t1, t2, t3, t4, Except.ok (), Except.ok [⟨n1⟩, ⟨n2⟩, ⟨n3⟩]⟩
        TraceState.initial).1 =
      Except.ok (Response.success ("Listed S3 buckets successfully") [n1, n2, n3]) ∧
    (aws_sdk_call_manual_instrumentation
        ⟨pid, t1, t2, t3, t4, Except.ok (), Except.ok [⟨n1⟩, ⟨n2⟩, ⟨n3⟩]⟩
        TraceState.initial).2.counterEvents =
      [[(("operation"), ("list_buckets"))]] := by
  constructor <;>
    simp [aws_sdk_call_manual_instrumentation, setAttribute, addEvent, recordException,
      setStatusError, TraceState.initial]

/-- C3: when the client is built but list-buckets raises with message
access denied, the invocation returns the failure shape carrying that message
and the fixed failure message, the counter records exactly one increment,
labelled operation list_buckets and status error, and the root span has its
status set to error with the same message. -/
theorem claim_C3_failure_access_denied (pid t1 t2 t3 t4 : Nat) :
    (aws_sdk_call_manual_instrumentation
        ⟨pid, t1, t2, t3, t4, Except.ok (), Except.error ("access denied")⟩
        TraceState.initial).1 =
      Except.ok (Response.failure ("access denied") ("Failed to list S3 buckets")) ∧
    (aws_sdk_call_manual_instrumentation
        ⟨pid, t1, t2, t3, t4, Except.ok (), Except.error ("access denied")⟩
        TraceState.initial).2.counterEvents =
      [[(("operation"), ("list_buckets")), (("status"), ("error"))]] ∧
    (∃ sp, (aws_sdk_call_manual_instrumentation
        ⟨pid, t1, t2, t3, t4, Except.ok (), Except.error ("access denied")⟩
        TraceState.initial).2.spans.head? = some sp ∧
      sp.name = "aws_s3_list_operation" ∧ sp.status = some ("access denied")) := by
  refine ⟨?_, ?_, ?_⟩ <;>
    simp [aws_sdk_call_manual_instrumentation, setAttribute, addEvent, recordException,
      setStatusError, TraceState.initial]

/-- C8: for every invocation, whichever wrapped call succeeds or raises, every
span opened during the invocation has been ended exactly once when the
invocation returns — no span is left open and none is ended twice. -/
theorem claim_C8_spans_closed_exactly_once (env : Env) :
    ((aws_sdk_call_manual_instrumentation env TraceState.initial).2.spans.all
      (fun sp => sp.closeCount == 1)) = true := by
  obtain ⟨pid, t1, t2, t3, t4, cs, lb⟩ := env
  cases cs with
  | error e =>
    simp [aws_sdk_call_manual_instrumentation, setAttribute, addEvent, recordException,
      setStatusError, TraceState.initial]
  | ok u =>
    cases u
    cases lb with
    | error e =>
      simp [aws_sdk_call_manual_instrumentation, setAttribute, addEvent, recordException,
        setStatusError, TraceState.initial]
    | ok bs =>
      simp [aws_sdk_call_manual_instrumentation, setAttribute, addEvent, recordException,
        setStatusError, TraceState.initial]

/-- C9: the no-instrumentation route performs the list-buckets call, ignores
its result entirely and has no return statement, so on every successful
outbound call the handler returns the Python value None — no payload. -/
theorem claim_C9_no_instrumentation_returns_none (bs : List Bucket) :
    aws_sdk_call_with_no_instrumentation (Except.ok ()) (Except.ok bs) =
      Except.ok none := rfl

/-- C10: on every failing invocation — the client construction raises, or it
succeeds and list-buckets raises — none of the success-path effects occur: the
root span never receives the operation.success or operation.total_duration_ms
attributes or the Operation completed successfully event, and no counter
increment carries the bare success label set. -/
theorem claim_C10_failure_frame (pid t1 t2 t3 t4 : Nat) (cs : Except String Unit)
    (lb : Except String (List Bucket)) (e : String)
    (h : cs = Except.error e ∨ (cs = Except.ok () ∧ lb = Except.error e)) :
    ((aws_sdk_call_manual_instrumentation ⟨pid, t1, t2, t3, t4, cs, lb⟩
        TraceState.initial).2.spans.all
      (fun sp => (!(sp.name == "aws_s3_list_operation")) ||
        ((sp.attributes.all (fun kv =>
            (!(kv.1 == "operation.success")) &&
              (!(kv.1 == "operation.total_duration_ms")))) &&
          (sp.events.all (fun ev =>
            !(ev.name == "Operation completed successfully")))))) = true ∧
    ((aws_sdk_call_manual_instrumentation ⟨pid, t1, t2, t3, t4, cs, lb⟩
        TraceState.initial).2.counterEvents.all
      (fun ls => !(ls == [(("operation"), ("list_buckets"))]))) = true := by
  rcases h with rfl | ⟨rfl, rfl⟩ <;>
    constructor <;>
      simp [aws_sdk_call_manual_instrumentation, setAttribute, addEvent, recordException,
        setStatusError, TraceState.initial]

theorem claim_C10_witness :
    ((Except.error ("boom") : Except String Unit) = Except.error ("boom") ∨
      ((Except.error ("boom") : Except String Unit) = Except.ok () ∧
        (Except.ok [] : Except String (List Bucket)) = Except.error ("boom"))) ∧
    (((aws_sdk_call_manual_instrumentation
        ⟨0, 0, 0, 0, 0, Except.error ("boom"), Except.ok []⟩
        TraceState.initial).2.spans.all
      (fun sp => (!(sp.name == "aws_s3_list_operation")) ||
        ((sp.attributes.all (fun kv =>
            (!(kv.1 == "operation.success")) &&
              (!(kv.1 == "operation.total_duration_ms")))) &&
          (sp.events.all (fun ev =>
            !(ev.name == "Operation completed successfully")))))) = true ∧
    ((aws_sdk_call_manual_instrumentation
        ⟨0, 0, 0, 0, 0, Except.error ("boom"), Except.ok []⟩
        TraceState.initial).2.counterEvents.all
      (fun ls => !(ls == [(("operation"), ("list_buckets"))]))) = true) :=
  ⟨Or.inl rfl,
    claim_C10_failure_frame 0 0 0 0 0 (Except.error ("boom")) (Except.ok []) ("boom")
      (Or.inl rfl)⟩
